import Mathlib

/-!
Verification of the school-administration backend's core:
the billing/payment reconciliation engine and the document access
controller. Data model follows src/backend/core/models.py; document
view logic follows src/backend/core/views.py; file admission rules
follow src/backend/core/validators.py. Monetary amounts (Django
DecimalField with two decimal places) are embedded as integers in
the smallest currency unit.
-/

namespace Billing

/-- Payment.PaymentMethod from models.py: CASH, BANK_TRANSFER,
MOBILE_MONEY, CARD. -/
inductive PaymentMethod where
  | cash
  | bankTransfer
  | mobileMoney
  | card
deriving DecidableEq, Repr

/-- Invoice.Status from models.py: UNPAID, PAID, PARTIALLY_PAID,
CANCELLED. -/
inductive InvoiceStatus where
  | unpaid
  | paid
  | partiallyPaid
  | cancelled
deriving DecidableEq, Repr

/-- Payment record from models.py (amount, payment_method), extended
with the `active` reversal tag. Modelled from the spec: the `active`
flag is absent from models.py; the spec's §4.2 reversal design tags a
Payment `active`/`reversed` instead of deleting it. -/
structure Payment where
  amount : Int
  payment_method : PaymentMethod
  active : Bool
deriving DecidableEq, Repr

/-- InvoiceItem record from models.py: invoice FK is implicit (items
live in their invoice's list), fee_type FK as an opaque id,
description, amount. -/
structure InvoiceItem where
  fee_type : Nat
  description : String
  amount : Int
deriving DecidableEq, Repr

/-- Invoice record from models.py: total_amount, amount_paid
(default 0), status (default UNPAID), together with its owned
items and payments (cascade-owned children). -/
structure Invoice where
  total_amount : Int
  amount_paid : Int
  status : InvoiceStatus
  items : List InvoiceItem
  payments : List Payment
deriving DecidableEq, Repr

/-- Sum of the amounts of a list of items. -/
def sumItems (its : List InvoiceItem) : Int :=
  (its.map (fun it => it.amount)).sum

/-- Sum of the amounts of the active (non-reversed) payments. -/
def sumActive (ps : List Payment) : Int :=
  ((ps.filter (fun p => p.active)).map (fun p => p.amount)).sum

/-- Modelled from the spec: status derivation, a pure function of
(total_amount, amount_paid, cancelled flag), absent from src. Per
§4.1 a fresh invoice (paid = 0) is UNPAID; per §4.2 a positive paid
below total is PARTIALLY_PAID and paid ≥ total is PAID; CANCELLED
only via the explicit flag. The §8 reversal round-trip property
forces paid = 0 back to UNPAID even when total = 0. -/
def deriveStatus (total paid : Int) (cancelled : Bool) : InvoiceStatus :=
  if cancelled then .cancelled
  else if paid ≤ 0 then .unpaid
  else if paid < total then .partiallyPaid
  else .paid

/-- Modelled from the spec: RecomputeTotals (§4.2), absent from src.
Recomputes total_amount from the items, amount_paid from the active
payments, and status from the derivation. -/
def recompute (inv : Invoice) : Invoice :=
  let total := sumItems inv.items
  let paid := sumActive inv.payments
  { inv with
    total_amount := total
    amount_paid := paid
    status := deriveStatus total paid (inv.status = .cancelled) }

/-- Error taxonomy of §7 (the part the billing engine raises). -/
inductive BillingError where
  | invalidAmount
  | invoiceCancelled
  | alreadyReversed
  | notFound
  | outstandingPayment
deriving DecidableEq, Repr

/-- Modelled from the spec: CreateInvoice (§4.1), absent from src:
total_amount = 0, amount_paid = 0, status = UNPAID, no children. -/
def createInvoice : Invoice :=
  { total_amount := 0
    amount_paid := 0
    status := .unpaid
    items := []
    payments := [] }

/-- Modelled from the spec: AddItem (§4.1), absent from src. Fails
with InvalidAmountError if amount < 0; otherwise appends the item and
recomputes the derived fields atomically with the item write. -/
def addItem (inv : Invoice) (fee_type : Nat) (amount : Int)
    (description : String) : Except BillingError Invoice :=
  if amount < 0 then .error .invalidAmount
  else .ok (recompute
    { inv with items := inv.items ++ [⟨fee_type, description, amount⟩] })

/-- Modelled from the spec: RecordPayment (§4.2), absent from src.
Fails with InvalidAmountError if amount ≤ 0, with
InvoiceCancelledError if the invoice is CANCELLED; otherwise appends
an active Payment and recomputes amount_paid and status. -/
def recordPayment (inv : Invoice) (amount : Int) (m : PaymentMethod) :
    Except BillingError (Invoice × Payment) :=
  if amount ≤ 0 then .error .invalidAmount
  else if inv.status = .cancelled then .error .invoiceCancelled
  else
    let p : Payment := ⟨amount, m, true⟩
    .ok (recompute { inv with payments := inv.payments ++ [p] }, p)

/-- Modelled from the spec: ReversePayment (§4.2), absent from src.
The payment is addressed by its position in the invoice's ledger.
Marks it inactive (never deletes it) and recomputes; fails with
AlreadyReversedError when it is already inactive. -/
def reversePayment (inv : Invoice) (i : Nat) :
    Except BillingError Invoice :=
  match inv.payments[i]? with
  | none => .error .notFound
  | some p =>
    if p.active then
      .ok (recompute
        { inv with payments := inv.payments.set i { p with active := false } })
    else .error .alreadyReversed

/-- Modelled from the spec: CancelInvoice (§4.2), absent from src.
Rejected with OutstandingPaymentError when amount_paid > 0 and no
force flag; otherwise sets status = CANCELLED. -/
def cancelInvoice (inv : Invoice) (force : Bool) :
    Except BillingError Invoice :=
  if 0 < inv.amount_paid ∧ force = false then .error .outstandingPayment
  else .ok { inv with status := .cancelled }

/-- Invoices reachable from CreateInvoice by the engine's operations.
-/
inductive Reachable : Invoice → Prop where
  | init : Reachable createInvoice
  | addItem {inv inv' : Invoice} {ft : Nat} {a : Int} {d : String} :
      Reachable inv → addItem inv ft a d = .ok inv' → Reachable inv'
  | record {inv inv' : Invoice} {a : Int} {m : PaymentMethod} {p : Payment} :
      Reachable inv → recordPayment inv a m = .ok (inv', p) → Reachable inv'
  | reverse {inv inv' : Invoice} {i : Nat} :
      Reachable inv → reversePayment inv i = .ok inv' → Reachable inv'
  | cancel {inv inv' : Invoice} {f : Bool} :
      Reachable inv → cancelInvoice inv f = .ok inv' → Reachable inv'

end Billing

namespace Billing

theorem sumActive_append (ps qs : List Payment) :
    sumActive (ps ++ qs) = sumActive ps + sumActive qs := by
  simp [sumActive, List.filter_append]

theorem sumItems_append (its jts : List InvoiceItem) :
    sumItems (its ++ jts) = sumItems its + sumItems jts := by
  simp [sumItems]

theorem sumActive_single_active (a : Int) (m : PaymentMethod) :
    sumActive [⟨a, m, true⟩] = a := by
  simp [sumActive]

theorem deriveStatus_true (t p : Int) : deriveStatus t p true = .cancelled :=
  rfl

theorem deriveStatus_false_ne_cancelled (t p : Int) :
    deriveStatus t p false ≠ .cancelled := by
  unfold deriveStatus
  split
  · simp_all
  · split
    · simp
    · split <;> simp

theorem deriveStatus_eq_partiallyPaid (t p : Int) :
    deriveStatus t p false = .partiallyPaid ↔ 0 < p ∧ p < t := by
  unfold deriveStatus
  split
  · simp_all
  · split
    · next h => simp; omega
    · split
      · next h h' => simp; omega
      · next h h' => simp; omega

theorem deriveStatus_eq_paid (t p : Int) :
    deriveStatus t p false = .paid ↔ 0 < p ∧ t ≤ p := by
  unfold deriveStatus
  split
  · simp_all
  · split
    · next h => simp; omega
    · split
      · next h h' => simp; omega
      · next h h' => simp; omega

/-- The reconciliation invariant of §4.2: the stored derived fields
agree with the children and the status derivation. -/
def Consistent (inv : Invoice) : Prop :=
  inv.total_amount = sumItems inv.items ∧
  inv.amount_paid = sumActive inv.payments ∧
  inv.status = deriveStatus inv.total_amount inv.amount_paid
      (inv.status = .cancelled)

theorem recompute_consistent (inv : Invoice) : Consistent (recompute inv) := by
  refine ⟨rfl, rfl, ?_⟩
  by_cases hc : inv.status = .cancelled
  · simp [recompute, hc, deriveStatus_true]
  · have hs : (recompute inv).status
        = deriveStatus (sumItems inv.items) (sumActive inv.payments) false := by
      simp [recompute, hc]
    have hnc : (recompute inv).status ≠ .cancelled := by
      rw [hs]; exact deriveStatus_false_ne_cancelled _ _
    have htot : (recompute inv).total_amount = sumItems inv.items := rfl
    have hpaid : (recompute inv).amount_paid = sumActive inv.payments := rfl
    rw [hs, htot, hpaid, decide_eq_false (deriveStatus_false_ne_cancelled _ _)]

theorem consistent_of_cancel (inv : Invoice) (h : Consistent inv) :
    Consistent { inv with status := .cancelled } := by
  obtain ⟨h1, h2, h3⟩ := h
  exact ⟨h1, h2, by simp [deriveStatus_true]⟩

/-- Every reachable invoice satisfies the reconciliation invariant. -/
theorem reachable_consistent {inv : Invoice} (h : Reachable inv) :
    Consistent inv := by
  induction h with
  | init => exact ⟨rfl, rfl, rfl⟩
  | addItem hr heq ih =>
    unfold addItem at heq
    split at heq
    · simp at heq
    · simp only [Except.ok.injEq] at heq
      subst heq
      exact recompute_consistent _
  | record hr heq ih =>
    unfold recordPayment at heq
    split at heq
    · simp at heq
    · split at heq
      · simp at heq
      · simp only [Except.ok.injEq, Prod.mk.injEq] at heq
        obtain ⟨h1, h2⟩ := heq
        subst h1
        exact recompute_consistent _
  | reverse hr heq ih =>
    unfold reversePayment at heq
    split at heq
    · simp at heq
    · split at heq
      · simp only [Except.ok.injEq] at heq
        subst heq
        exact recompute_consistent _
      · simp at heq
  | cancel hr heq ih =>
    unfold cancelInvoice at heq
    split at heq
    · simp at heq
    · simp only [Except.ok.injEq] at heq
      subst heq
      exact consistent_of_cancel _ ih

theorem recompute_eq_self_of_consistent {inv : Invoice}
    (h : Consistent inv) : recompute inv = inv := by
  obtain ⟨h1, h2, h3⟩ := h
  cases inv with
  | mk t p s its ps =>
    simp only at h1 h2 h3
    simp [recompute, ← h1, ← h2, ← h3]

/-- C1: after every engine operation, a reachable invoice's
amount_paid equals the sum of the amounts of its active
(non-reversed) payments. -/
theorem amount_paid_invariant {inv : Invoice} (h : Reachable inv) :
    inv.amount_paid = sumActive inv.payments :=
  (reachable_consistent h).2.1

theorem amount_paid_invariant_witness :
    ({ total_amount := 0, amount_paid := 100, status := .paid, items := [],
       payments := [⟨100, .cash, true⟩] } : Invoice).amount_paid
      = sumActive [⟨100, .cash, true⟩] := by
  have h1 : recordPayment createInvoice 100 .cash
      = .ok ({ total_amount := 0, amount_paid := 100, status := .paid,
               items := [], payments := [⟨100, .cash, true⟩] },
             ⟨100, .cash, true⟩) := by rfl
  exact amount_paid_invariant (Reachable.record Reachable.init h1)

/-- C2: after every item mutation, a reachable invoice's total_amount
equals the sum of the amounts of its items; it is only ever written by
the recomputation. -/
theorem total_amount_invariant {inv : Invoice} (h : Reachable inv) :
    inv.total_amount = sumItems inv.items :=
  (reachable_consistent h).1

theorem total_amount_invariant_witness :
    ({ total_amount := 50000, amount_paid := 0, status := .unpaid,
       items := [⟨1, "tuition", 50000⟩], payments := [] } : Invoice).total_amount
      = sumItems [⟨1, "tuition", 50000⟩] := by
  have h1 : addItem createInvoice 1 50000 "tuition"
      = .ok { total_amount := 50000, amount_paid := 0, status := .unpaid,
              items := [⟨1, "tuition", 50000⟩], payments := [] } := by rfl
  exact total_amount_invariant (Reachable.addItem Reachable.init h1)

/-- C3 counterexample: the freshly created invoice is reachable and
has amount_paid ≥ total_amount (0 ≥ 0), yet its status is UNPAID,
not PAID: "PAID when amount_paid >= total_amount" fails at
amount_paid = 0. -/
theorem status_paid_claim_counterexample :
    Reachable createInvoice ∧
    createInvoice.total_amount ≤ createInvoice.amount_paid ∧
    createInvoice.status ≠ .paid :=
  ⟨Reachable.init, by decide, by decide⟩

/-- C3 amended: for every reachable invoice, status is the pure
status derivation of (total_amount, amount_paid, cancelled flag),
PARTIALLY_PAID exactly when 0 < amount_paid < total_amount and PAID
exactly when amount_paid >= total_amount AND amount_paid > 0 (a fresh
invoice with amount_paid = 0 stays UNPAID even though 0 ≥ 0);
recomputing with no intervening writes is the identity, so
recomputing twice yields the same status; status never deviates from
the derivation except through the explicit cancellation flag. -/
theorem status_derivation {inv : Invoice} (h : Reachable inv) :
    inv.status = deriveStatus inv.total_amount inv.amount_paid
        (inv.status = .cancelled) ∧
    recompute inv = inv ∧
    (inv.status ≠ .cancelled →
      ((inv.status = .partiallyPaid ↔
          0 < inv.amount_paid ∧ inv.amount_paid < inv.total_amount) ∧
       (inv.status = .paid ↔
          0 < inv.amount_paid ∧ inv.total_amount ≤ inv.amount_paid))) := by
  have hc := reachable_consistent h
  refine ⟨hc.2.2, recompute_eq_self_of_consistent hc, ?_⟩
  intro hnc
  have hflag : decide (inv.status = .cancelled) = false :=
    decide_eq_false hnc
  have hs := hc.2.2
  rw [hflag] at hs
  constructor
  · rw [hs]; exact deriveStatus_eq_partiallyPaid _ _
  · rw [hs]; exact deriveStatus_eq_paid _ _

/-- The §8 scenario state used to witness the amended C3: items
totalling 50,000, one payment of 20,000. -/
def demoPartiallyPaid : Invoice :=
  { total_amount := 50000, amount_paid := 20000, status := .partiallyPaid,
    items := [⟨1, "tuition", 50000⟩], payments := [⟨20000, .cash, true⟩] }

theorem status_derivation_witness :
    (demoPartiallyPaid.status
        = deriveStatus demoPartiallyPaid.total_amount
            demoPartiallyPaid.amount_paid
            (demoPartiallyPaid.status = .cancelled) ∧
     recompute demoPartiallyPaid = demoPartiallyPaid ∧
     (demoPartiallyPaid.status ≠ .cancelled →
       ((demoPartiallyPaid.status = .partiallyPaid ↔
           0 < demoPartiallyPaid.amount_paid ∧
             demoPartiallyPaid.amount_paid < demoPartiallyPaid.total_amount) ∧
        (demoPartiallyPaid.status = .paid ↔
           0 < demoPartiallyPaid.amount_paid ∧
             demoPartiallyPaid.total_amount ≤ demoPartiallyPaid.amount_paid)))) := by
  have h1 : addItem createInvoice 1 50000 "tuition"
      = .ok { total_amount := 50000, amount_paid := 0, status := .unpaid,
              items := [⟨1, "tuition", 50000⟩], payments := [] } := by rfl
  have h2 : recordPayment
      { total_amount := 50000, amount_paid := 0, status := .unpaid,
        items := [⟨1, "tuition", 50000⟩], payments := [] } 20000 .cash
      = .ok (demoPartiallyPaid, ⟨20000, .cash, true⟩) := by rfl
  exact status_derivation
    (Reachable.record (Reachable.addItem Reachable.init h1) h2)

/-- C4: RecordPayment fails with InvalidAmountError when amount ≤ 0,
fails with InvoiceCancelledError when the invoice is CANCELLED, and
otherwise appends the Payment and recomputes amount_paid as the sum
of the active payments and status per the derivation; failures return
an error and no invoice, so no partial state survives a rejected
call. -/
theorem recordPayment_spec (inv : Invoice) (a : Int) (m : PaymentMethod) :
    (a ≤ 0 → recordPayment inv a m = .error .invalidAmount) ∧
    (0 < a → inv.status = .cancelled →
      recordPayment inv a m = .error .invoiceCancelled) ∧
    (0 < a → inv.status ≠ .cancelled →
      ∃ inv' p, recordPayment inv a m = .ok (inv', p) ∧
        p = ⟨a, m, true⟩ ∧
        inv'.payments = inv.payments ++ [p] ∧
        inv'.items = inv.items ∧
        inv'.amount_paid = sumActive inv'.payments ∧
        inv'.amount_paid = sumActive inv.payments + a ∧
        inv'.total_amount = sumItems inv.items ∧
        inv'.status = deriveStatus inv'.total_amount inv'.amount_paid false) := by
  refine ⟨?_, ?_, ?_⟩
  · intro ha
    unfold recordPayment
    rw [if_pos ha]
  · intro ha hcanc
    unfold recordPayment
    rw [if_neg (by omega), if_pos hcanc]
  · intro ha hnc
    have hrp : recordPayment inv a m
        = .ok (recompute
            { inv with payments := inv.payments ++ [⟨a, m, true⟩] },
          (⟨a, m, true⟩ : Payment)) := by
      unfold recordPayment
      rw [if_neg (by omega), if_neg hnc]
    refine ⟨_, _, hrp, rfl, rfl, rfl, rfl, ?_, rfl, ?_⟩
    · show sumActive (inv.payments ++ [⟨a, m, true⟩])
        = sumActive inv.payments + a
      rw [sumActive_append, sumActive_single_active]
    · show deriveStatus _ _ (decide (inv.status = .cancelled))
        = deriveStatus _ _ false
      rw [decide_eq_false hnc]
      rfl

theorem recordPayment_spec_witness :
    recordPayment createInvoice (-5) .cash = .error .invalidAmount ∧
    recordPayment ({ total_amount := 0, amount_paid := 0,
                     status := .cancelled, items := [],
                     payments := [] } : Invoice) 10 .cash
      = .error .invoiceCancelled ∧
    (∃ inv' p, recordPayment createInvoice 100 .cash = .ok (inv', p) ∧
        p = ⟨100, .cash, true⟩ ∧
        inv'.payments = createInvoice.payments ++ [p] ∧
        inv'.items = createInvoice.items ∧
        inv'.amount_paid = sumActive inv'.payments ∧
        inv'.amount_paid = sumActive createInvoice.payments + 100 ∧
        inv'.total_amount = sumItems createInvoice.items ∧
        inv'.status = deriveStatus inv'.total_amount inv'.amount_paid false) :=
  ⟨(recordPayment_spec createInvoice (-5) .cash).1 (by decide),
   (recordPayment_spec
      ({ total_amount := 0, amount_paid := 0, status := .cancelled,
         items := [], payments := [] } : Invoice) 10 .cash).2.1
      (by decide) rfl,
   (recordPayment_spec createInvoice 100 .cash).2.2 (by decide) (by decide)⟩

/-- C5: ReversePayment on an active payment marks it inactive in
place (the ledger keeps its length and the record stays readable, so
the audit trail survives) and recomputes amount_paid and status; a
second reversal of the same payment fails with AlreadyReversedError.
-/
theorem reversePayment_spec (inv : Invoice) (i : Nat) (p : Payment)
    (hp : inv.payments[i]? = some p) :
    (p.active = true →
      ∃ inv', reversePayment inv i = .ok inv' ∧
        inv'.payments = inv.payments.set i { p with active := false } ∧
        inv'.payments.length = inv.payments.length ∧
        inv'.payments[i]? = some { p with active := false } ∧
        inv'.items = inv.items ∧
        inv'.amount_paid = sumActive inv'.payments ∧
        inv'.status = deriveStatus inv'.total_amount inv'.amount_paid
            (inv.status = .cancelled) ∧
        reversePayment inv' i = .error .alreadyReversed) ∧
    (p.active = false → reversePayment inv i = .error .alreadyReversed) := by
  have hlt : i < inv.payments.length := by
    by_contra hge
    rw [List.getElem?_eq_none (by omega)] at hp
    exact Option.noConfusion hp
  constructor
  · intro hact
    have hrv : reversePayment inv i
        = .ok (recompute
            { inv with
              payments := inv.payments.set i { p with active := false } }) := by
      unfold reversePayment
      simp only [hp]
      rw [if_pos hact]
    refine ⟨_, hrv, rfl, ?_, ?_, rfl, rfl, rfl, ?_⟩
    · show (inv.payments.set i { p with active := false }).length
        = inv.payments.length
      simp
    · show (inv.payments.set i { p with active := false })[i]?
        = some { p with active := false }
      exact List.getElem?_set_eq_of_lt _ hlt
    · unfold reversePayment
      have hgot : (recompute
          { inv with
            payments := inv.payments.set i { p with active := false }
          }).payments[i]? = some { p with active := false } :=
        List.getElem?_set_eq_of_lt _ hlt
      simp only [hgot]
      rfl
  · intro hact
    unfold reversePayment
    simp only [hp]
    rw [if_neg (by simp [hact])]

/-- A fully paid single-payment invoice, the C5 witness state. -/
def demoPaid : Invoice :=
  { total_amount := 0, amount_paid := 100, status := .paid, items := [],
    payments := [⟨100, .cash, true⟩] }

theorem reversePayment_spec_witness :
    ((⟨100, .cash, true⟩ : Payment).active = true →
      ∃ inv', reversePayment demoPaid 0 = .ok inv' ∧
        inv'.payments
          = demoPaid.payments.set 0
              { (⟨100, .cash, true⟩ : Payment) with active := false } ∧
        inv'.payments.length = demoPaid.payments.length ∧
        inv'.payments[0]?
          = some { (⟨100, .cash, true⟩ : Payment) with active := false } ∧
        inv'.items = demoPaid.items ∧
        inv'.amount_paid = sumActive inv'.payments ∧
        inv'.status = deriveStatus inv'.total_amount inv'.amount_paid
            (demoPaid.status = .cancelled) ∧
        reversePayment inv' 0 = .error .alreadyReversed) ∧
    ((⟨100, .cash, true⟩ : Payment).active = false →
      reversePayment demoPaid 0 = .error .alreadyReversed) :=
  reversePayment_spec demoPaid 0 ⟨100, .cash, true⟩ (by rfl)

end Billing

namespace Docs

/-- The slice of the User model the document controller consumes: an
opaque id and the staff (elevated-privilege) bit checked by views.py.
-/
structure DocUser where
  id : Nat
  is_staff : Bool
deriving DecidableEq, Repr

/-- Modelled from the spec: the Document model is imported by views.py
but missing from models.py; record shape per §6:
Document{id, owner (user), filename, size, storage handle}. -/
structure Document where
  id : Nat
  user : Nat
  filename : String
  size : Nat
  file : Nat
deriving DecidableEq, Repr

/-- DocumentViewSet.get_queryset from views.py: non-staff users are
restricted to their own documents; a user_id query parameter filters
by owner only when the requester is staff. -/
def get_queryset (docs : List Document) (user : DocUser)
    (user_id : Option Nat) : List Document :=
  let q := if user.is_staff then docs
           else docs.filter (fun d => d.user == user.id)
  match user_id with
  | some uid => if user.is_staff then q.filter (fun d => d.user == uid) else q
  | none => q

/-- Django ValidationError as raised by validators.py, tagged by which
validator raised it. -/
inductive ValidationError where
  | fileTooLarge
  | unsupportedExtension
deriving DecidableEq, Repr

/-- The 10 MB limit of validate_file_size in validators.py. -/
def upload_size_limit : Nat := 10 * 1024 * 1024

/-- validate_file_size from validators.py: rejects when size exceeds
the limit (strictly greater). -/
def validate_file_size (size : Nat) : Except ValidationError Unit :=
  if size > upload_size_limit then .error .fileTooLarge else .ok ()

/-- Index of the last occurrence of a character, -1 when absent
(Python str.rfind). -/
def rfindIdx (cs : List Char) (c : Char) : Int :=
  (cs.foldl
    (fun (st : Int × Int) ch =>
      if ch = c then (st.2, st.2 + 1) else (st.1, st.2 + 1))
    (-1, 0)).1

/-- os.path.splitext(p)[1] (posix): the suffix from the last dot that
lies after the last path separator, provided some non-dot character
stands between them; empty otherwise (so dotless and all-leading-dot
names have no extension). -/
def splitext_ext (p : String) : String :=
  let cs := p.data
  let sepIndex := rfindIdx cs '/'
  let dotIndex := rfindIdx cs '.'
  if sepIndex < dotIndex then
    let base := (cs.drop (sepIndex + 1).toNat).take (dotIndex - sepIndex - 1).toNat
    if base.any (fun ch => ch ≠ '.') then String.mk (cs.drop dotIndex.toNat)
    else ""
  else ""

/-- str.lower applied in validators.py, as the character-wise lower
map (ASCII case folding, which is all the ASCII-only allow-list
comparison can distinguish). -/
def lower (s : String) : String :=
  String.mk (s.data.map Char.toLower)

/-- The allow-list of validators.py. -/
def valid_extensions : List String :=
  [".jpg", ".jpeg", ".png", ".webp", ".pdf", ".doc", ".docx"]

/-- validate_file_extension from validators.py: lower-cases the
extension produced by os.path.splitext and rejects when it is not in
the allow-list. -/
def validate_file_extension (name : String) : Except ValidationError Unit :=
  let ext := lower (splitext_ext name)
  if valid_extensions.contains ext then .ok ()
  else .error .unsupportedExtension

/-- Errors of the upload path: serializer validation failures and the
PermissionDenied raised by DocumentViewSet.perform_create. -/
inductive UploadError where
  | validation (e : ValidationError)
  | permissionDenied
deriving DecidableEq, Repr

/-- The document-creation flow of views.py: serializer validation
(running both validators of validators.py) precedes
DocumentViewSet.perform_create, which resolves the owner to the
user supplied in the request body (else the requester) and raises
PermissionDenied when uploading for another user without staff
privilege; only then is the record saved. -/
def upload (store : List Document) (actor : DocUser)
    (owner_field : Option Nat) (filename : String) (size : Nat)
    (handle : Nat) : Except UploadError (List Document × Document) :=
  match validate_file_size size with
  | .error e => .error (.validation e)
  | .ok _ =>
    match validate_file_extension filename with
    | .error e => .error (.validation e)
    | .ok _ =>
      let owner := owner_field.getD actor.id
      if owner ≠ actor.id ∧ actor.is_staff = false then
        .error .permissionDenied
      else
        let doc : Document := ⟨store.length, owner, filename, size, handle⟩
        .ok (store ++ [doc], doc)

/-- Outcome of DocumentViewSet.download: Http404 from get_object (no
such document in the requester's queryset), the FileNotFoundError
branch (blob missing for an existing record, answered with the
explicit error response), or the file contents. -/
inductive DownloadResult where
  | notFound
  | storageFault
  | ok (contents : List Nat)
deriving DecidableEq, Repr

/-- The external blob store: handle-keyed byte sequences. -/
def lookupBlob (blobs : List (Nat × List Nat)) (h : Nat) :
    Option (List Nat) :=
  (blobs.find? (fun b => b.1 == h)).map (fun b => b.2)

/-- DocumentViewSet.download from views.py: get_object resolves pk
inside get_queryset (hence Http404 for documents that are absent or
invisible to the requester), then opens the underlying file, turning
a missing blob into the explicit file-not-found error response. -/
def download (docs : List Document) (blobs : List (Nat × List Nat))
    (user : DocUser) (user_id : Option Nat) (pk : Nat) : DownloadResult :=
  match (get_queryset docs user user_id).find? (fun d => d.id == pk) with
  | none => .notFound
  | some d =>
    match lookupBlob blobs d.file with
    | none => .storageFault
    | some bs => .ok bs

theorem get_queryset_nonstaff (docs : List Document) (user : DocUser)
    (uid : Option Nat) (h : user.is_staff = false) :
    get_queryset docs user uid = docs.filter (fun d => d.user == user.id) := by
  unfold get_queryset
  rcases uid with _ | u <;> simp [h]

theorem get_queryset_staff_none (docs : List Document) (user : DocUser)
    (h : user.is_staff = true) :
    get_queryset docs user none = docs := by
  unfold get_queryset
  simp [h]

theorem get_queryset_staff_some (docs : List Document) (user : DocUser)
    (fid : Nat) (h : user.is_staff = true) :
    get_queryset docs user (some fid)
      = docs.filter (fun d => d.user == fid) := by
  unfold get_queryset
  simp [h]

theorem mem_docs_of_mem_get_queryset {docs : List Document}
    {user : DocUser} {uid : Option Nat} {d : Document}
    (hd : d ∈ get_queryset docs user uid) : d ∈ docs := by
  cases hs : user.is_staff with
  | false =>
    rw [get_queryset_nonstaff docs user uid hs] at hd
    exact (List.mem_filter.mp hd).1
  | true =>
    rcases uid with _ | u
    · rw [get_queryset_staff_none docs user hs] at hd
      exact hd
    · rw [get_queryset_staff_some docs user u hs] at hd
      exact (List.mem_filter.mp hd).1

/-- C6: a non-staff actor's listing is exactly their own documents,
whatever user_id filter is supplied (in particular every returned
document is owned by the actor); a staff actor's listing is filtered
to the requested owner when user_id is present, and is everything
when it is absent. -/
theorem list_documents_visibility (docs : List Document) (user : DocUser)
    (uid : Option Nat) (fid : Nat) :
    (user.is_staff = false →
      get_queryset docs user uid
        = docs.filter (fun d => d.user == user.id)) ∧
    (user.is_staff = true →
      get_queryset docs user (some fid)
        = docs.filter (fun d => d.user == fid)) ∧
    (user.is_staff = true → get_queryset docs user none = docs) ∧
    (user.is_staff = false →
      ∀ d, d ∈ get_queryset docs user uid → d.user = user.id) := by
  refine ⟨get_queryset_nonstaff docs user uid,
          get_queryset_staff_some docs user fid,
          get_queryset_staff_none docs user, ?_⟩
  intro h d hd
  rw [get_queryset_nonstaff docs user uid h] at hd
  simpa using (List.mem_filter.mp hd).2

theorem list_documents_visibility_witness :
    get_queryset
        [⟨0, 1, "a.pdf", 5, 0⟩, ⟨1, 2, "b.pdf", 6, 1⟩]
        ⟨1, false⟩ (some 2)
      = List.filter (fun d => d.user == 1)
          [⟨0, 1, "a.pdf", 5, 0⟩, ⟨1, 2, "b.pdf", 6, 1⟩] :=
  (list_documents_visibility
      [⟨0, 1, "a.pdf", 5, 0⟩, ⟨1, 2, "b.pdf", 6, 1⟩]
      ⟨1, false⟩ (some 2) 2).1 rfl

/-- C7: Upload resolves the effective owner to the owner supplied in
the request body when present, else to the actor; once validation
passes it fails with PermissionDenied exactly when the effective
owner differs from the actor and the actor is not staff, and
otherwise persists exactly one new document owned by the effective
owner; a validation failure surfaces before anything is persisted
(every failure returns an error carrying no store). -/
theorem upload_owner_permission (store : List Document) (actor : DocUser)
    (owner_field : Option Nat) (fn : String) (size hdl : Nat) :
    (∀ e, validate_file_size size = .error e →
        upload store actor owner_field fn size hdl
          = .error (.validation e)) ∧
    (∀ e, validate_file_size size = .ok () →
        validate_file_extension fn = .error e →
        upload store actor owner_field fn size hdl
          = .error (.validation e)) ∧
    (validate_file_size size = .ok () →
      validate_file_extension fn = .ok () →
      ((upload store actor owner_field fn size hdl
          = .error .permissionDenied
        ↔ owner_field.getD actor.id ≠ actor.id ∧ actor.is_staff = false) ∧
       (owner_field.getD actor.id = actor.id ∨ actor.is_staff = true →
        upload store actor owner_field fn size hdl
          = .ok (store ++
              [⟨store.length, owner_field.getD actor.id, fn, size, hdl⟩],
              ⟨store.length, owner_field.getD actor.id, fn, size, hdl⟩)))) := by
  refine ⟨?_, ?_, ?_⟩
  · intro e he
    unfold upload
    rw [he]
  · intro e hs he
    unfold upload
    rw [hs, he]
  · intro hs he
    have hbase : upload store actor owner_field fn size hdl
        = if owner_field.getD actor.id ≠ actor.id ∧ actor.is_staff = false
          then .error .permissionDenied
          else .ok (store ++
              [⟨store.length, owner_field.getD actor.id, fn, size, hdl⟩],
              ⟨store.length, owner_field.getD actor.id, fn, size, hdl⟩) := by
      unfold upload
      rw [hs, he]
    constructor
    · rw [hbase]
      constructor
      · intro hu
        by_cases hc : owner_field.getD actor.id ≠ actor.id ∧
            actor.is_staff = false
        · exact hc
        · rw [if_neg hc] at hu
          exact absurd hu (by simp)
      · intro hc
        rw [if_pos hc]
    · intro hc
      have hnc : ¬(owner_field.getD actor.id ≠ actor.id ∧
          actor.is_staff = false) := by
        rcases hc with h1 | h1
        · exact fun hcontra => hcontra.1 h1
        · exact fun hcontra => by simp [h1] at hcontra
      rw [hbase, if_neg hnc]

theorem upload_owner_permission_witness :
    upload [] ⟨1, false⟩ (some 2) "report.pdf" 100 7
      = .error .permissionDenied :=
  ((upload_owner_permission [] ⟨1, false⟩ (some 2) "report.pdf" 100 7).2.2
      (by rfl) (by rfl)).1.mpr ⟨by decide, rfl⟩

/-- C8: admission accepts a size exactly when it is at most
10,485,760 bytes (the bound itself passes, one byte more fails with
the oversize ValidationError) and accepts a filename exactly when the
lower-cased trailing extension is one of the seven allowed, so
REPORT.PDF passes and report.exe fails with the
unsupported-extension ValidationError. -/
theorem file_admission_spec (size : Nat) (name : String) :
    (validate_file_size size = .ok () ↔ size ≤ 10485760) ∧
    validate_file_size 10485760 = .ok () ∧
    validate_file_size 10485761 = .error .fileTooLarge ∧
    (validate_file_extension name = .ok () ↔
      (lower (splitext_ext name) = ".jpg" ∨
       lower (splitext_ext name) = ".jpeg" ∨
       lower (splitext_ext name) = ".png" ∨
       lower (splitext_ext name) = ".webp" ∨
       lower (splitext_ext name) = ".pdf" ∨
       lower (splitext_ext name) = ".doc" ∨
       lower (splitext_ext name) = ".docx")) ∧
    validate_file_extension "REPORT.PDF" = .ok () ∧
    validate_file_extension "report.exe" = .error .unsupportedExtension := by
  refine ⟨?_, by rfl, by rfl, ?_, by rfl, by rfl⟩
  · unfold validate_file_size upload_size_limit
    constructor
    · intro hok
      by_cases hgt : size > 10 * 1024 * 1024
      · rw [if_pos hgt] at hok
        exact absurd hok (by simp)
      · omega
    · intro hle
      rw [if_neg (by omega)]
  · have hc : (valid_extensions.contains (lower (splitext_ext name)) = true)
        ↔ (lower (splitext_ext name) = ".jpg" ∨
           lower (splitext_ext name) = ".jpeg" ∨
           lower (splitext_ext name) = ".png" ∨
           lower (splitext_ext name) = ".webp" ∨
           lower (splitext_ext name) = ".pdf" ∨
           lower (splitext_ext name) = ".doc" ∨
           lower (splitext_ext name) = ".docx") := by
      unfold valid_extensions
      simp
    show (if valid_extensions.contains (lower (splitext_ext name))
          then (Except.ok () : Except ValidationError Unit)
          else .error .unsupportedExtension) = .ok () ↔ _
    split
    · next hb => exact iff_of_true rfl (hc.mp hb)
    · next hb =>
      exact iff_of_false (by simp) (fun hdisj => hb (hc.mpr hdisj))

theorem file_admission_spec_witness :
    validate_file_size 5 = .ok () :=
  (file_admission_spec 5 "x.pdf").1.mpr (by omega)

/-- C9: Download answers not-found both when no document has the
requested id and when the requester is not staff and owns no document
with that id (the visibility rule of listing, with no distinct
permission-denied answer); when the record is found in the
requester's queryset but its blob is missing, the outcome is the
explicit storage-fault response, and with the blob present the bytes
are returned. -/
theorem download_spec (docs : List Document)
    (blobs : List (Nat × List Nat)) (user : DocUser) (uid : Option Nat)
    (pk : Nat) :
    ((∀ d, d ∈ docs → d.id ≠ pk) →
        download docs blobs user uid pk = .notFound) ∧
    (user.is_staff = false →
        (∀ d, d ∈ docs → d.id = pk → d.user ≠ user.id) →
        download docs blobs user uid pk = .notFound) ∧
    (∀ d, (get_queryset docs user uid).find? (fun x => x.id == pk)
          = some d →
        lookupBlob blobs d.file = none →
        download docs blobs user uid pk = .storageFault) ∧
    (∀ d bs, (get_queryset docs user uid).find? (fun x => x.id == pk)
          = some d →
        lookupBlob blobs d.file = some bs →
        download docs blobs user uid pk = .ok bs) := by
  refine ⟨?_, ?_, ?_, ?_⟩
  · intro hnone
    have hfind : (get_queryset docs user uid).find? (fun x => x.id == pk)
        = none := by
      apply List.find?_eq_none.mpr
      intro x hx
      simpa using hnone x (mem_docs_of_mem_get_queryset hx)
    unfold download
    rw [hfind]
  · intro hstaff hown
    have hfind : (get_queryset docs user uid).find? (fun x => x.id == pk)
        = none := by
      apply List.find?_eq_none.mpr
      intro x hx
      rw [get_queryset_nonstaff docs user uid hstaff] at hx
      have hxf := List.mem_filter.mp hx
      have hxo : x.user = user.id := by simpa using hxf.2
      simp only [beq_iff_eq]
      intro hxid
      exact absurd hxo (hown x hxf.1 hxid)
    unfold download
    rw [hfind]
  · intro d hfind hblob
    have hstep : download docs blobs user uid pk
        = match lookupBlob blobs d.file with
          | none => DownloadResult.storageFault
          | some bs => DownloadResult.ok bs := by
      unfold download
      rw [hfind]
    rw [hstep, hblob]
  · intro d bs hfind hblob
    have hstep : download docs blobs user uid pk
        = match lookupBlob blobs d.file with
          | none => DownloadResult.storageFault
          | some bs => DownloadResult.ok bs := by
      unfold download
      rw [hfind]
    rw [hstep, hblob]

theorem download_spec_witness :
    download [⟨0, 1, "a.pdf", 5, 7⟩] [] ⟨9, true⟩ none 0
      = .storageFault :=
  (download_spec [⟨0, 1, "a.pdf", 5, 7⟩] [] ⟨9, true⟩ none 0).2.2.1
    ⟨0, 1, "a.pdf", 5, 7⟩ (by rfl) (by rfl)

/-- C10: a filename whose extracted extension is empty (no trailing
dot-suffix) is rejected with the unsupported-extension
ValidationError, since the empty extension is not in the allow-list.
-/
theorem empty_extension_rejected (name : String)
    (h : splitext_ext name = "") :
    validate_file_extension name = .error .unsupportedExtension := by
  unfold validate_file_extension
  rw [h]
  rfl

theorem empty_extension_rejected_witness :
    validate_file_extension "README"
      = .error .unsupportedExtension :=
  empty_extension_rejected "README" (by rfl)

end Docs
